import Mathlib

/-!
Verification of the Talus Tally backend process supervisor
(src/frontend/src-tauri/src/lib.rs).

The Rust code is shallowly embedded as pure trace-producing functions:
- filesystem state is a predicate on paths (a path is a list of components);
- the outcome of each fallible environment interaction (the spawn system
  call, the mutex lock acquisition, the TCP connect) is an explicit input;
- every observable side effect (pkill, sleep, spawn, kill, store of the
  child handle, prevent-close, event emission, app/process exit, prints)
  is recorded as an `Action` in an output trace, in program order.
-/

namespace TalusTally

/-- A filesystem path, as its list of components; the root `/` is `[]`.
Mirrors `std::path::PathBuf` at the component level. -/
abbrev FsPath := List String

/-- A filesystem state: which paths exist (`Path::exists`). -/
abbrev FileSystem := FsPath → Bool

/-- An OS child-process handle (`std::process::Child`), abstracted to its pid. -/
structure Child where
  pid : Nat
deriving DecidableEq

/-- The three mutually exclusive backend-candidate outcomes of resolution
(lines 98-127 of lib.rs): the packaged standalone binary, the
virtual-environment interpreter with module arguments, or the system
interpreter with the same module arguments. -/
inductive BackendCandidate where
  | packaged (path : FsPath)
  | venvPython (path : FsPath) (args : List String)
  | systemPython (prog : String) (args : List String)
deriving DecidableEq

/-- Observable side effects of the supervisor, recorded in program order. -/
inductive Action where
  | println (msg : String)
  | eprintln (msg : String)
  | reap (pat : String)
  | sleepMs (ms : Nat)
  | tcpConnect (addr : String)
  | spawn (cand : BackendCandidate)
  | storeHandle (c : Child)
  | kill (c : Child)
  | preventClose
  | emitEvent (name : String)
  | windowClose
  | appExit (code : Int)
  | processExit (code : Int)
deriving DecidableEq

/-- Is this action a kill of the owned child (`child.kill()`)? -/
def Action.isKill : Action → Bool
  | .kill _ => true
  | _ => false

/-- Is this action a spawn attempt (`Command::spawn`)? -/
def Action.isSpawn : Action → Bool
  | .spawn _ => true
  | _ => false

/-- Is this action a stale-instance reap (`pkill -f`)? -/
def Action.isReap : Action → Bool
  | .reap _ => true
  | _ => false

/-- Is this action a store of the child handle (`*proc = Some(child)`)? -/
def Action.isStore : Action → Bool
  | .storeHandle _ => true
  | _ => false

/-- Is this action a diagnostic print to stderr (`eprintln!`)? -/
def Action.isEprintln : Action → Bool
  | .eprintln _ => true
  | _ => false

/-- Is this action a print to stdout (`println!`)? -/
def Action.isPrintln : Action → Bool
  | .println _ => true
  | _ => false

/-- Is this action one that ends the application process
(`app.exit` or `std::process::exit`)? -/
def Action.isExit : Action → Bool
  | .appExit _ => true
  | .processExit _ => true
  | _ => false

/-- Is this action the settle sleep (`thread::sleep`)? -/
def Action.isSleep : Action → Bool
  | .sleepMs _ => true
  | _ => false

/-- The fixed installed-package root `/opt/talus-tally` (line 150). -/
def optRoot : FsPath := ["opt", "talus-tally"]

/-- The directory name probed for during the upward walk (line 157). -/
def backendDirName : String := "backend"

/-- The stale-process patterns passed to `pkill -f` on the Linux/macOS
reaping path (lines 64, 74). -/
def reap_patterns : List String := ["python.*backend.app", "talus-tally-backend"]

/-- The fixed module-invocation arguments `["-m", "backend.app"]`
(lines 116, 123). -/
def moduleArgs : List String := ["-m", "backend.app"]

/-- The backend health endpoint `127.0.0.1:5000` (line 170). -/
def backendAddr : String := "127.0.0.1:5000"

/-- `Path::parent`: `none` for the root, otherwise the path without its last
component (line 147 uses it on the executable path). -/
def parentDir (p : FsPath) : Option FsPath :=
  match p with
  | [] => none
  | _ => some p.dropLast

/-- The path literal `Path::new(".")`, the fallback when the executable path
has no parent (line 147) and when `current_dir` fails (line 164). -/
def dotPath : FsPath := ["."]

/-- `Path::ancestors` (line 156): the path itself, then each successive
parent, ending at the root; in components, the prefixes of `p` from longest
to shortest. -/
def ancestors (p : FsPath) : List FsPath :=
  (List.range (p.length + 1)).reverse.map fun k => p.take k

/-- `determine_project_root` (lines 145-165). Inputs: the result of
`std::env::current_exe()` (`none` = `Err`), the filesystem state, and the
result of `std::env::current_dir()` (`none` = `Err`). -/
def determine_project_root (exePath : Option FsPath) (fs : FileSystem)
    (cwd : Option FsPath) : FsPath :=
  match exePath with
  | some exe_path =>
    let exe_dir := (parentDir exe_path).getD dotPath
    if optRoot.isPrefixOf exe_dir then
      optRoot
    else
      match (ancestors exe_dir).find? (fun a => fs (a ++ [backendDirName])) with
      | some found => found
      | none => cwd.getD dotPath
  | none => cwd.getD dotPath

/-- The backend-candidate selection embedded in `start_backend`
(lines 98-127): packaged binary if present, else virtualenv interpreter if
present, else the system interpreter, the latter two with `moduleArgs`. -/
def select_backend (project_root : FsPath) (fs : FileSystem) : BackendCandidate :=
  let packaged_backend := project_root ++ ["talus-tally-backend"]
  let venv_python := project_root ++ [".venv", "bin", "python3"]
  if fs packaged_backend then
    .packaged packaged_backend
  else if fs venv_python then
    .venvPython venv_python moduleArgs
  else
    .systemPython "python3" moduleArgs

/-- `start_backend` (lines 59-143). Inputs beyond the filesystem and path
environment: the outcome of the one `spawn` call the function performs
(`Except.error` = `Err(e)`), the outcome of `backend_process.lock()`
(`false` = the lock is poisoned and `if let Ok` falls through), and the
handle state before the call. Returns the handle state after the call and
the trace of side effects (Linux/macOS reaping branch). -/
def start_backend (fs : FileSystem) (exePath : Option FsPath)
    (cwd : Option FsPath) (spawnResult : Except String Child)
    (lockOk : Bool) (backend_process : Option Child) :
    Option Child × List Action :=
  let reapActs : List Action :=
    [Action.println "Checking for existing backend processes..."]
      ++ reap_patterns.map Action.reap
      ++ [Action.println "✓ Killed any existing backend processes",
          Action.sleepMs 1000]
  let project_root := determine_project_root exePath fs cwd
  let packaged_backend := project_root ++ ["talus-tally-backend"]
  let venv_python := project_root ++ [".venv", "bin", "python3"]
  let spawnActs : List Action :=
    if fs packaged_backend then
      [Action.println "✓ Starting packaged backend binary at",
       Action.spawn (.packaged packaged_backend)]
    else if fs venv_python then
      [Action.println "✓ Starting backend via virtualenv Python at",
       Action.spawn (.venvPython venv_python moduleArgs)]
    else
      [Action.println "⚠️  Virtualenv not found, falling back to system python3",
       Action.spawn (.systemPython "python3" moduleArgs)]
  match spawnResult with
  | .ok child =>
    if lockOk then
      (some child,
       reapActs ++ spawnActs
         ++ [Action.storeHandle child,
             Action.println "✓ Backend started successfully"])
    else
      (backend_process, reapActs ++ spawnActs)
  | .error e =>
    (backend_process,
     reapActs ++ spawnActs
       ++ [Action.eprintln ("✗ Failed to start Python backend: " ++ e),
           Action.eprintln "Project root:",
           Action.eprintln "Venv python:",
           Action.eprintln "Make sure you have Python installed and .venv activated"])

/-- The shared termination block of `exit_app` (lines 197-201) and
`force_close_window` (lines 208-212): under the lock, take the handle if
present and kill it; if the lock acquisition fails (`lockOk = false`), the
whole block is skipped and the handle is left as it was. -/
def terminate (lockOk : Bool) (backend_process : Option Child) :
    Option Child × List Action :=
  if lockOk then
    match backend_process with
    | some child => (none, [Action.kill child])
    | none => (none, [])
  else
    (backend_process, [])

/-- `exit_app` (lines 196-203): run the termination block, then `app.exit(0)`. -/
def exit_app (lockOk : Bool) (backend_process : Option Child) :
    Option Child × List Action :=
  let r := terminate lockOk backend_process
  (r.1, r.2 ++ [Action.appExit 0])

/-- `force_close_window` (lines 205-215): print, run the termination block,
print, then `std::process::exit(0)`. -/
def force_close_window (lockOk : Bool) (backend_process : Option Child) :
    Option Child × List Action :=
  let r := terminate lockOk backend_process
  (r.1,
   [Action.println "✓ [FORCE CLOSE] Called, killing backend and exiting"]
     ++ r.2
     ++ [Action.println "✓ [FORCE CLOSE] Backend killed, exiting with code 0",
         Action.processExit 0])

/-- `backend_status` (lines 167-174): one TCP connect attempt to the fixed
endpoint; `true` on `Ok`, `false` on `Err`. -/
def backend_status (conn : Except String Unit) : Bool × List Action :=
  (match conn with
   | .ok _ => true
   | .error _ => false,
   [Action.tcpConnect backendAddr])

/-- The host window events the `on_window_event` closure distinguishes. -/
inductive WindowEvent where
  | closeRequested
  | other
deriving DecidableEq

/-- The `on_window_event` closure (lines 37-52): on `CloseRequested`,
call `api.prevent_close()` and then emit `tauri://close-requested` to the
frontend, with the surrounding log prints; every other event does nothing. -/
def on_window_event (ev : WindowEvent) : List Action :=
  match ev with
  | .closeRequested =>
    [Action.println "✓ [CLOSE REQUESTED] Event received in Rust",
     Action.preventClose,
     Action.println "✓ [CLOSE REQUESTED] Calling prevent_close()",
     Action.println "✓ [CLOSE REQUESTED] Emitting tauri://close-requested event",
     Action.emitEvent "tauri://close-requested",
     Action.println "✓ [CLOSE REQUESTED] Event emitted successfully"]
  | .other => []

/-- `close_window` (lines 190-193): delegates to the host `window.close()`. -/
def close_window : List Action := [Action.windowClose]

/-- Helper: `List.find?` returns the first element satisfying the predicate,
so an element at position `i` that satisfies it, with every earlier position
failing it, is the result. -/
theorem find?_of_first {α : Type} (p : α → Bool) (l : List α) (i : Nat) (x : α)
    (hx : l.get? i = some x) (hpx : p x = true)
    (hmin : ∀ j y, j < i → l.get? j = some y → p y = false) :
    l.find? p = some x := by
  induction l generalizing i with
  | nil => simp at hx
  | cons a tl ih =>
    cases i with
    | zero =>
      simp only [List.get?_cons_zero, Option.some.injEq] at hx
      subst hx
      exact List.find?_cons_of_pos _ hpx
    | succ n =>
      have ha : p a = false := hmin 0 a (Nat.succ_pos n) rfl
      rw [List.find?_cons_of_neg _ (by simp [ha])]
      exact ih n hx fun j y hj hy => hmin (j + 1) y (Nat.succ_lt_succ hj) hy

/-- C3: project-root resolution follows the three-step priority of
`determine_project_root`: if the executable's directory lies under
`/opt/talus-tally`, that root is returned with no further search;
otherwise the first ancestor of the executable's directory (the directory
itself included, as `Path::ancestors` yields it first) whose `backend`
child exists is returned; otherwise the current working directory is
returned (also when the executable path is unavailable). The result is a
single deterministic path because `determine_project_root` is a total
function of the executable path, the filesystem state and the working
directory. -/
theorem C3_determine_project_root_priority (exe_path : FsPath) (fs : FileSystem)
    (cwd : Option FsPath) :
    (optRoot.isPrefixOf ((parentDir exe_path).getD dotPath) = true →
       determine_project_root (some exe_path) fs cwd = optRoot) ∧
    (optRoot.isPrefixOf ((parentDir exe_path).getD dotPath) = false →
       ∀ i r, (ancestors ((parentDir exe_path).getD dotPath)).get? i = some r →
         fs (r ++ [backendDirName]) = true →
         (∀ j a, j < i →
            (ancestors ((parentDir exe_path).getD dotPath)).get? j = some a →
            fs (a ++ [backendDirName]) = false) →
         determine_project_root (some exe_path) fs cwd = r) ∧
    (optRoot.isPrefixOf ((parentDir exe_path).getD dotPath) = false →
       (∀ a, a ∈ ancestors ((parentDir exe_path).getD dotPath) →
          fs (a ++ [backendDirName]) = false) →
       determine_project_root (some exe_path) fs cwd = cwd.getD dotPath) ∧
    (determine_project_root none fs cwd = cwd.getD dotPath) := by
  refine ⟨?_, ?_, ?_, rfl⟩
  · intro hpre
    simp [determine_project_root, hpre]
  · intro hpre i r hir hr hmin
    have hfind := find?_of_first (fun a => fs (a ++ [backendDirName])) _ i r hir hr hmin
    simp [determine_project_root, hpre, hfind]
  · intro hpre hnone
    have hfind : (ancestors ((parentDir exe_path).getD dotPath)).find?
        (fun a => fs (a ++ [backendDirName])) = none := by
      rw [List.find?_eq_none]
      intro a ha
      simp [hnone a ha]
    simp [determine_project_root, hpre, hfind]

/-- Witness for C3: concrete executions of all four branches. An executable
under the installed root resolves to `/opt/talus-tally`; an executable in a
tree whose directory contains `backend` resolves to that directory; with no
`backend` anywhere, resolution falls back to the working directory, as it
does when the executable path is unavailable. -/
theorem C3_determine_project_root_priority_witness :
    determine_project_root (some ["opt", "talus-tally", "bin", "app"])
        (fun _ => false) none = optRoot ∧
    determine_project_root (some ["home", "dev", "proj", "app"])
        (fun p => p == ["home", "dev", "proj", "backend"]) none
      = ["home", "dev", "proj"] ∧
    determine_project_root (some ["home", "dev", "app"]) (fun _ => false)
        (some ["work", "dir"]) = ["work", "dir"] ∧
    determine_project_root none (fun _ => false) (some ["work", "dir"])
      = ["work", "dir"] := by
  refine ⟨?_, ?_, ?_, ?_⟩
  · exact (C3_determine_project_root_priority ["opt", "talus-tally", "bin", "app"]
      (fun _ => false) none).1 (by decide)
  · exact (C3_determine_project_root_priority ["home", "dev", "proj", "app"]
      (fun p => p == ["home", "dev", "proj", "backend"]) none).2.1 (by decide)
      0 ["home", "dev", "proj"] (by decide) (by decide)
      (fun j a hj _ => absurd hj (Nat.not_lt_zero j))
  · exact (C3_determine_project_root_priority ["home", "dev", "app"]
      (fun _ => false) (some ["work", "dir"])).2.2.1 (by decide)
      (fun a _ => rfl)
  · exact (C3_determine_project_root_priority ["x"] (fun _ => false)
      (some ["work", "dir"])).2.2.2

/-- C2: backend-candidate selection is a total function of the project root
and the filesystem state, with strict first-match priority: the packaged
binary at `root/talus-tally-backend` if it exists, else the virtualenv
interpreter at `root/.venv/bin/python3` with the fixed module arguments,
else the system `python3` with the same arguments. The final conjunct ties
the selection to `start_backend`: the candidate spawned at position 6 of
its trace is exactly the selected one for the resolved root. -/
theorem C2_backend_candidate_selection (project_root : FsPath) (fs : FileSystem)
    (exePath cwd : Option FsPath) (spawnResult : Except String Child)
    (lockOk : Bool) (h : Option Child) :
    (fs (project_root ++ ["talus-tally-backend"]) = true →
       select_backend project_root fs
         = .packaged (project_root ++ ["talus-tally-backend"])) ∧
    (fs (project_root ++ ["talus-tally-backend"]) = false →
     fs (project_root ++ [".venv", "bin", "python3"]) = true →
       select_backend project_root fs
         = .venvPython (project_root ++ [".venv", "bin", "python3"]) moduleArgs) ∧
    (fs (project_root ++ ["talus-tally-backend"]) = false →
     fs (project_root ++ [".venv", "bin", "python3"]) = false →
       select_backend project_root fs = .systemPython "python3" moduleArgs) ∧
    ((start_backend fs exePath cwd spawnResult lockOk h).2.get? 6
       = some (.spawn (select_backend (determine_project_root exePath fs cwd) fs))) := by
  refine ⟨fun h1 => by simp [select_backend, h1],
          fun h1 h2 => by simp [select_backend, h1, h2],
          fun h1 h2 => by simp [select_backend, h1, h2], ?_⟩
  cases spawnResult <;> cases lockOk <;>
    cases hp : fs (determine_project_root exePath fs cwd ++ ["talus-tally-backend"]) <;>
      cases hv : fs (determine_project_root exePath fs cwd ++ [".venv", "bin", "python3"]) <;>
        simp [start_backend, select_backend, reap_patterns, hp, hv]

/-- Witness for C2: all three priority cases evaluated at the empty root on
concrete filesystem states. -/
theorem C2_backend_candidate_selection_witness :
    select_backend [] (fun _ => true)
      = BackendCandidate.packaged ["talus-tally-backend"] ∧
    select_backend [] (fun p => p == [".venv", "bin", "python3"])
      = BackendCandidate.venvPython [".venv", "bin", "python3"] moduleArgs ∧
    select_backend [] (fun _ => false)
      = BackendCandidate.systemPython "python3" moduleArgs := by
  refine ⟨?_, ?_, ?_⟩
  · exact (C2_backend_candidate_selection [] (fun _ => true) none none
      (Except.error "") false none).1 rfl
  · exact (C2_backend_candidate_selection [] (fun p => p == [".venv", "bin", "python3"])
      none none (Except.error "") false none).2.1 (by decide) (by decide)
  · exact (C2_backend_candidate_selection [] (fun _ => false) none none
      (Except.error "") false none).2.2.1 rfl rfl

/-- C5: the termination block is idempotent. With the lock acquired: a
present handle is killed and cleared, an absent handle is a no-op with no
kill; after one call the handle is empty, a second immediate call performs
no action at all, and the two calls together perform at most one kill. -/
theorem C5_terminate_idempotent (h : Option Child) (c : Child) :
    terminate true (some c) = (none, [Action.kill c]) ∧
    terminate true (none : Option Child) = (none, []) ∧
    (terminate true h).1 = none ∧
    terminate true (terminate true h).1 = (none, []) ∧
    ((terminate true h).2
       ++ (terminate true (terminate true h).1).2).countP Action.isKill ≤ 1 := by
  cases h <;> simp [terminate, Action.isKill]

/-- C9: when the lock acquisition fails during an exit command, the kill
step is skipped (no kill action in either trace, handle untouched) and the
exit path still proceeds: `exit_app` reaches `app.exit(0)` and
`force_close_window` reaches `std::process::exit(0)`. -/
theorem C9_lock_failure_skips_kill_exit_proceeds (h : Option Child) :
    (exit_app false h).2.countP Action.isKill = 0 ∧
    Action.appExit 0 ∈ (exit_app false h).2 ∧
    (exit_app false h).1 = h ∧
    (force_close_window false h).2.countP Action.isKill = 0 ∧
    Action.processExit 0 ∈ (force_close_window false h).2 ∧
    (force_close_window false h).1 = h := by
  simp [exit_app, force_close_window, terminate, Action.isKill]

/-- The trace of side effects of one `start_backend` execution. -/
def start_backend_trace (fs : FileSystem) (exePath cwd : Option FsPath)
    (spawnResult : Except String Child) (lockOk : Bool)
    (backend_process : Option Child) : List Action :=
  (start_backend fs exePath cwd spawnResult lockOk backend_process).2

/-- C1: on both exit paths with the lock acquired and a backend owned, the
termination step runs strictly before the process-ending call: the kill of
the owned child appears at an earlier trace position than the exit call,
the handle is already cleared (the resulting handle state is empty) when
the exit call is issued, the exit call is the last action of the trace, and
the forced path exits through `std::process::exit` with status 0. -/
theorem C1_terminate_before_exit (h : Option Child) (c : Child)
    (hc : h = some c) :
    ((exit_app true h).1 = none ∧
     ∃ i j, i < j ∧ (exit_app true h).2.get? i = some (Action.kill c) ∧
       (exit_app true h).2.get? j = some (Action.appExit 0) ∧
       (exit_app true h).2.length = j + 1) ∧
    ((force_close_window true h).1 = none ∧
     ∃ i j, i < j ∧
       (force_close_window true h).2.get? i = some (Action.kill c) ∧
       (force_close_window true h).2.get? j = some (Action.processExit 0) ∧
       (force_close_window true h).2.length = j + 1) := by
  subst hc
  exact ⟨⟨rfl, 0, 1, Nat.zero_lt_one, rfl, rfl, rfl⟩,
         ⟨rfl, 1, 3, by omega, rfl, rfl, rfl⟩⟩

/-- Witness for C1: the exit-path ordering evaluated with a concrete owned
child of pid 0. -/
theorem C1_terminate_before_exit_witness :
    ((exit_app true (some ⟨0⟩)).1 = none ∧
     ∃ i j, i < j ∧
       (exit_app true (some ⟨0⟩)).2.get? i = some (Action.kill ⟨0⟩) ∧
       (exit_app true (some ⟨0⟩)).2.get? j = some (Action.appExit 0) ∧
       (exit_app true (some ⟨0⟩)).2.length = j + 1) ∧
    ((force_close_window true (some ⟨0⟩)).1 = none ∧
     ∃ i j, i < j ∧
       (force_close_window true (some ⟨0⟩)).2.get? i = some (Action.kill ⟨0⟩) ∧
       (force_close_window true (some ⟨0⟩)).2.get? j = some (Action.processExit 0) ∧
       (force_close_window true (some ⟨0⟩)).2.length = j + 1) :=
  C1_terminate_before_exit (some ⟨0⟩) ⟨0⟩ rfl

/-- C4: the close-requested handler unconditionally calls prevent-close and
then emits exactly one `tauri://close-requested` notification: the trace
contains exactly one prevent-close and exactly one emission, prevent-close
strictly first; every other action is a log print (no window close, no
kill, no store, no exit call), and every other window event does nothing. -/
theorem C4_close_requested_prevent_then_notify_once :
    (on_window_event .closeRequested).count Action.preventClose = 1 ∧
    (on_window_event .closeRequested).count
      (Action.emitEvent "tauri://close-requested") = 1 ∧
    (on_window_event .closeRequested).findIdx (fun a => a == Action.preventClose)
      < (on_window_event .closeRequested).findIdx
          (fun a => a == Action.emitEvent "tauri://close-requested") ∧
    ((on_window_event .closeRequested).all fun a =>
       a.isPrintln || a == Action.preventClose
         || a == Action.emitEvent "tauri://close-requested") = true ∧
    ((on_window_event .closeRequested).any fun a =>
       a == Action.windowClose || a.isExit || a.isKill || a.isStore) = false ∧
    on_window_event .other = [] := by
  decide

/-- C6: when the one spawn attempt of `start_backend` fails, the handle is
left exactly as it was, exactly one spawn was attempted (no retry), nothing
is stored, no exit or kill action occurs, and the failure is reported as
exactly four stderr diagnostics; being a total Lean function, the embedded
`start_backend` returns normally, mirroring that no exception propagates. -/
theorem C6_spawn_failure_nonfatal (fs : FileSystem) (exePath cwd : Option FsPath)
    (e : String) (lockOk : Bool) (h : Option Child) :
    (start_backend fs exePath cwd (Except.error e) lockOk h).1 = h ∧
    (start_backend_trace fs exePath cwd (Except.error e) lockOk h).countP
      Action.isSpawn = 1 ∧
    (start_backend_trace fs exePath cwd (Except.error e) lockOk h).countP
      Action.isStore = 0 ∧
    ((start_backend_trace fs exePath cwd (Except.error e) lockOk h).any
      fun a => a.isExit || a.isKill) = false ∧
    (start_backend_trace fs exePath cwd (Except.error e) lockOk h).countP
      Action.isEprintln = 4 := by
  cases hp : fs (determine_project_root exePath fs cwd ++ ["talus-tally-backend"]) <;>
    cases hv : fs (determine_project_root exePath fs cwd ++ [".venv", "bin", "python3"]) <;>
      simp [start_backend_trace, start_backend, reap_patterns, hp, hv,
        Action.isSpawn, Action.isStore, Action.isExit, Action.isKill,
        Action.isEprintln, List.countP_cons]

/-- C7: the health check is a plain boolean with a single TCP connect to
the fixed endpoint as its only interaction: it returns true exactly when
the connect succeeds and false exactly when it fails; its trace is exactly
one connect attempt (no retries, no other side effects), and in particular
with the connection refused (as when no backend was ever started) it
returns false. -/
theorem C7_backend_status_boolean (conn : Except String Unit) :
    ((backend_status conn).1 = true ↔ ∃ u, conn = Except.ok u) ∧
    ((backend_status conn).1 = false ↔ ∃ e, conn = Except.error e) ∧
    (backend_status conn).2 = [Action.tcpConnect backendAddr] := by
  cases conn <;> simp [backend_status]

/-- Witness for C7: a successful connect yields true; a refused connect
yields false; the trace is the single connect attempt. -/
theorem C7_backend_status_boolean_witness :
    (backend_status (Except.ok ())).1 = true ∧
    (backend_status (Except.error "connection refused")).1 = false ∧
    (backend_status (Except.error "connection refused")).2
      = [Action.tcpConnect backendAddr] :=
  ⟨(C7_backend_status_boolean (Except.ok ())).1.mpr ⟨(), rfl⟩,
   (C7_backend_status_boolean (Except.error "connection refused")).2.1.mpr
     ⟨"connection refused", rfl⟩,
   (C7_backend_status_boolean (Except.error "connection refused")).2.2⟩

/-- C8: every `start_backend` execution performs its steps in strict
sequential order: the two reap actions sit at trace positions 1 and 2, the
fixed 1000 ms settle sleep at position 4, and the single spawn attempt at
position 6; no spawn occurs in the first six positions and no reap or
sleep occurs from position 5 on, so the reap and the full settle delay
complete strictly before any spawn on every path, for every filesystem
state, spawn outcome and lock outcome. -/
theorem C8_start_backend_sequential_order (fs : FileSystem)
    (exePath cwd : Option FsPath) (spawnResult : Except String Child)
    (lockOk : Bool) (h : Option Child) :
    (start_backend_trace fs exePath cwd spawnResult lockOk h).get? 1
      = some (Action.reap "python.*backend.app") ∧
    (start_backend_trace fs exePath cwd spawnResult lockOk h).get? 2
      = some (Action.reap "talus-tally-backend") ∧
    (start_backend_trace fs exePath cwd spawnResult lockOk h).get? 4
      = some (Action.sleepMs 1000) ∧
    (∃ c, (start_backend_trace fs exePath cwd spawnResult lockOk h).get? 6
      = some (Action.spawn c)) ∧
    ((start_backend_trace fs exePath cwd spawnResult lockOk h).take 6).countP
      Action.isSpawn = 0 ∧
    ((start_backend_trace fs exePath cwd spawnResult lockOk h).drop 5).countP
      Action.isReap = 0 ∧
    ((start_backend_trace fs exePath cwd spawnResult lockOk h).drop 5).countP
      Action.isSleep = 0 ∧
    (start_backend_trace fs exePath cwd spawnResult lockOk h).countP
      Action.isSpawn = 1 := by
  cases spawnResult <;> cases lockOk <;>
    cases hp : fs (determine_project_root exePath fs cwd ++ ["talus-tally-backend"]) <;>
      cases hv : fs (determine_project_root exePath fs cwd ++ [".venv", "bin", "python3"]) <;>
        simp [start_backend_trace, start_backend, reap_patterns, hp, hv,
          Action.isSpawn, Action.isReap, Action.isSleep, List.countP_cons]

/-- C10: when the spawn succeeds but the lock acquisition fails, the fresh
child handle is dropped without being stored: the handle state is unchanged
and no store action occurs; if the handle was empty before the call it is
still empty, so the termination block and both exit commands applied to the
resulting state perform no kill — the running backend is never killed. -/
theorem C10_lock_failure_drops_spawned_child (fs : FileSystem)
    (exePath cwd : Option FsPath) (child : Child) (h : Option Child) :
    (start_backend fs exePath cwd (Except.ok child) false h).1 = h ∧
    (start_backend_trace fs exePath cwd (Except.ok child) false h).countP
      Action.isStore = 0 ∧
    (h = none →
      (terminate true (start_backend fs exePath cwd (Except.ok child) false h).1).2.countP
        Action.isKill = 0 ∧
      (exit_app true (start_backend fs exePath cwd (Except.ok child) false h).1).2.countP
        Action.isKill = 0 ∧
      (force_close_window true
        (start_backend fs exePath cwd (Except.ok child) false h).1).2.countP
        Action.isKill = 0) := by
  refine ⟨?_, ?_, ?_⟩
  · cases hp : fs (determine_project_root exePath fs cwd ++ ["talus-tally-backend"]) <;>
      cases hv : fs (determine_project_root exePath fs cwd ++ [".venv", "bin", "python3"]) <;>
        simp [start_backend, hp, hv]
  · cases hp : fs (determine_project_root exePath fs cwd ++ ["talus-tally-backend"]) <;>
      cases hv : fs (determine_project_root exePath fs cwd ++ [".venv", "bin", "python3"]) <;>
        simp [start_backend_trace, start_backend, reap_patterns, hp, hv,
          Action.isStore, List.countP_cons]
  · intro hnone
    have h1 : (start_backend fs exePath cwd (Except.ok child) false h).1 = h := by
      cases hp : fs (determine_project_root exePath fs cwd ++ ["talus-tally-backend"]) <;>
        cases hv : fs (determine_project_root exePath fs cwd ++ [".venv", "bin", "python3"]) <;>
          simp [start_backend, hp, hv]
    rw [h1, hnone]
    simp [terminate, exit_app, force_close_window, Action.isKill]

/-- Witness for C10: concrete execution with an empty filesystem, an empty
prior handle and a freshly spawned child of pid 1: the handle stays empty
and the subsequent termination paths perform no kill. -/
theorem C10_lock_failure_drops_spawned_child_witness :
    (start_backend (fun _ => false) none none (Except.ok ⟨1⟩) false none).1 = none ∧
    (start_backend_trace (fun _ => false) none none (Except.ok ⟨1⟩) false none).countP
      Action.isStore = 0 ∧
    ((terminate true
        (start_backend (fun _ => false) none none (Except.ok ⟨1⟩) false none).1).2.countP
      Action.isKill = 0 ∧
     (exit_app true
        (start_backend (fun _ => false) none none (Except.ok ⟨1⟩) false none).1).2.countP
      Action.isKill = 0 ∧
     (force_close_window true
        (start_backend (fun _ => false) none none (Except.ok ⟨1⟩) false none).1).2.countP
      Action.isKill = 0) :=
  ⟨(C10_lock_failure_drops_spawned_child (fun _ => false) none none ⟨1⟩ none).1,
   (C10_lock_failure_drops_spawned_child (fun _ => false) none none ⟨1⟩ none).2.1,
   (C10_lock_failure_drops_spawned_child (fun _ => false) none none ⟨1⟩ none).2.2 rfl⟩

end TalusTally
